import Mathlib

/-!
Shallow embedding of the lina-signspeak recording trigger state machine and
its collaborators, translated from:
  * `src/pages/Index.tsx` (page controller: hand-presence debounce, mode
    toggle, manual start/stop, processing pipeline dispatch),
  * the `useRecorder` hook (MediaRecorder wrapper: codec fallback, start,
    stop),
  * `src/components/ControlDock.tsx` (button routing and disabling),
  * `src/services/tts.ts` (`textToSpeech` header handling).
Booleans of React state become record fields; the `setTimeout` disappear
timer becomes an `Option Nat` deadline; side effects become an explicit
action list; timestamped events drive a small-step trace semantics.
-/

namespace SignSpeak

/-- Observable side effects of the controller and recorder, in emission
order: hook invocations, MediaRecorder effects, sounds, pipeline dispatch
and console logging. -/
inductive Action where
  | playStartSound
  | playStopSound
  | startRecCall
  | stopRecCall
  | recorderStart
  | recorderStop
  | consoleError
  | processVideo (size : Nat)
  deriving DecidableEq, Repr

/-- The controller state of `Index.tsx` merged with the `useRecorder` hook
state. `timer` is the pending hand-disappear deadline
(`handDisappearTimerRef`), `recorderPresent`/`recorderInactive` mirror
`mediaRecorderRef.current` and its `state === 'inactive'` check,
`chunkSize` is the total size of buffered chunks, `streamAvailable` models
`videoStageRef.current?.getStream()` and `constructorOk` models whether
`new MediaRecorder(stream, options)` succeeds. -/
structure MachineState where
  isAutoMode : Bool
  isProcessing : Bool
  translatedText : Option String
  error : Option String
  handsCurrentlyDetected : Bool
  isWaitingForHands : Bool
  isRecording : Bool
  recorderPresent : Bool
  recorderInactive : Bool
  chunkSize : Nat
  recordedBlob : Option Nat
  timer : Option Nat
  streamAvailable : Bool
  constructorOk : Bool
  deriving DecidableEq, Repr

/-- The constant `HAND_DISAPPEAR_DELAY = 2500` (Index.tsx line 20). -/
def HAND_DISAPPEAR_DELAY : Nat := 2500

/-- Preferred codec string of `useRecorder.startRecording`. -/
def MIME_PREFERRED : String := "video/webm;codecs=vp8,opus"

/-- First fallback codec string. -/
def MIME_WEBM : String := "video/webm"

/-- Second fallback codec string, used without a support check. -/
def MIME_MP4 : String := "video/mp4"

/-- The fixed codec priority order attempted by the recorder. -/
def codecPriority : List String := [MIME_PREFERRED, MIME_WEBM, MIME_MP4]

/-- Codec selection of `useRecorder.startRecording`: keep the preferred
mime type if supported, otherwise fall back to webm, otherwise to mp4
(the last without a support check), mirroring the nested
`MediaRecorder.isTypeSupported` tests. -/
def chooseMimeType (supported : String → Bool) : String :=
  if supported MIME_PREFERRED then MIME_PREFERRED
  else if supported MIME_WEBM then MIME_WEBM
  else MIME_MP4

/-- Embedding of `useRecorder.startRecording`: clear the chunk buffer, then try to
construct a MediaRecorder; on success install handlers, start it and set
`isRecording`; on failure only log to the console. -/
def startRecording (s : MachineState) : MachineState × List Action :=
  let s0 := { s with chunkSize := 0 }
  if s0.constructorOk then
    ({ s0 with recorderPresent := true, recorderInactive := false, isRecording := true },
     [Action.recorderStart])
  else
    (s0, [Action.consoleError])

/-- Embedding of `useRecorder.stopRecording`: with no MediaRecorder or an inactive one,
clear `isRecording` and resolve `null` with no side effect; otherwise stop
the recorder, merge the chunks into one blob, clear the buffer and resolve
the blob. The second component is the resolved blob size. -/
def stopRecording (s : MachineState) : MachineState × Option Nat × List Action :=
  if !s.recorderPresent || s.recorderInactive then
    ({ s with isRecording := false }, none, [])
  else
    ({ s with isRecording := false, recorderInactive := true, chunkSize := 0,
              recordedBlob := some s.chunkSize },
     some s.chunkSize, [Action.recorderStop])

/-- The `setTimeout` callback armed by `handleHandsDetected` when hands
disappear while recording: clear `isWaitingForHands`, play the stop sound,
await `stopRecording`, hand a non-empty blob to `processVideo` (whose
first synchronous statements set `isProcessing` and clear the previous
result), and null the timer ref. -/
def timerCallback (s : MachineState) : MachineState × List Action :=
  let r := stopRecording { s with isWaitingForHands := false }
  let a := Action.playStopSound :: Action.stopRecCall :: r.2.2
  match r.2.1 with
  | some n =>
      if n > 0 then
        ({ r.1 with isProcessing := true, error := none, translatedText := none,
                    timer := none },
         a ++ [Action.processVideo n])
      else
        ({ r.1 with timer := none }, a)
  | none => ({ r.1 with timer := none }, a)

/-- Embedding of `handleStopRecording` (Index.tsx): clear `isWaitingForHands`, cancel a
pending disappear timer, play the stop sound, await `stopRecording` and
dispatch a non-empty blob to `processVideo`. -/
def handleStopRecording (s : MachineState) : MachineState × List Action :=
  let r := stopRecording { s with isWaitingForHands := false, timer := none }
  let a := Action.playStopSound :: Action.stopRecCall :: r.2.2
  match r.2.1 with
  | some n =>
      if n > 0 then
        ({ r.1 with isProcessing := true, error := none, translatedText := none },
         a ++ [Action.processVideo n])
      else (r.1, a)
  | none => (r.1, a)

/-- Embedding of `handleStartRecording` (Index.tsx): with hands already visible and a
stream, reset the result fields, play the start sound and start the
recorder; with hands absent, enter the waiting-for-hands state without
starting the recorder. -/
def handleStartRecording (s : MachineState) : MachineState × List Action :=
  if s.handsCurrentlyDetected then
    if s.streamAvailable then
      let r := startRecording { s with error := none, translatedText := none }
      (r.1, Action.playStartSound :: Action.startRecCall :: r.2)
    else (s, [])
  else
    ({ s with isWaitingForHands := true, error := none, translatedText := none }, [])

/-- Embedding of `handleToggleAutoMode` (Index.tsx): flip the mode and clear any
pending disappear timer. -/
def handleToggleAutoMode (s : MachineState) : MachineState × List Action :=
  ({ s with isAutoMode := !s.isAutoMode, timer := none }, [])

/-- Embedding of `handleHandsDetected` (Index.tsx). The branch conditions read the
values captured by the React callback, i.e. the state `s` at entry, while
the updates accumulate; the timer ref is read and written directly. -/
def handleHandsDetected (s : MachineState) (detected : Bool) (t : Nat) :
    MachineState × List Action :=
  let s0 := { s with handsCurrentlyDetected := detected }
  if s.isProcessing then (s0, [])
  else if detected then
    let s1 := { s0 with timer := none }
    let p2 :=
      if s.isWaitingForHands && !s.isRecording then
        if s.streamAvailable then
          let r := startRecording { s1 with isWaitingForHands := false }
          (r.1, Action.playStartSound :: Action.startRecCall :: r.2)
        else (s1, ([] : List Action))
      else (s1, ([] : List Action))
    let p3 :=
      if s.isAutoMode && !s.isRecording && !s.isWaitingForHands then
        if s.streamAvailable then
          let r := startRecording { p2.1 with error := none, translatedText := none }
          (r.1, Action.playStartSound :: Action.startRecCall :: r.2)
        else (p2.1, ([] : List Action))
      else (p2.1, ([] : List Action))
    (p3.1, p2.2 ++ p3.2)
  else
    if s.isRecording && s.timer.isNone then
      ({ s0 with timer := some (t + HAND_DISAPPEAR_DELAY) }, [])
    else (s0, [])

/-- The ControlDock auto-mode toggle button: it carries
`disabled={isRecording || isProcessing}`, so a click reaches
`handleToggleAutoMode` only outside those states. -/
def dispatchToggleClick (s : MachineState) : MachineState × List Action :=
  if s.isRecording || s.isProcessing then (s, [])
  else handleToggleAutoMode s

/-- The ControlDock record button: rendered only in manual mode, disabled
while processing, and routed to `onStopRecording` when recording or
waiting for hands, otherwise to `onStartRecording`. -/
def dispatchRecordClick (s : MachineState) : MachineState × List Action :=
  if s.isAutoMode || s.isProcessing then (s, [])
  else if s.isRecording || s.isWaitingForHands then handleStopRecording s
  else handleStartRecording s

/-- External events delivered to the controller: a hand-presence sample,
a record-button click, a mode-toggle click, and a MediaRecorder
`ondataavailable` delivery of a chunk. -/
inductive Event where
  | sample (detected : Bool)
  | recordClick
  | toggleClick
  | dataAvailable (n : Nat)
  deriving DecidableEq, Repr

/-- An event together with the time at which it is delivered. -/
structure TimedEvent where
  t : Nat
  ev : Event
  deriving DecidableEq, Repr

/-- Fire the pending disappear timer when its deadline has been reached by
time `t`; otherwise leave the state alone. -/
def fireTimerIfDue (s : MachineState) (t : Nat) : MachineState × List Action :=
  match s.timer with
  | some d => if d ≤ t then timerCallback s else (s, [])
  | none => (s, [])

/-- The `ondataavailable` handler of the recorder: append a chunk with
positive size to the buffer while the recorder is live. -/
def dataAvailable (s : MachineState) (n : Nat) : MachineState × List Action :=
  if s.recorderPresent && !s.recorderInactive && n > 0 then
    ({ s with chunkSize := s.chunkSize + n }, [])
  else (s, [])

/-- Dispatch one event to its handler. -/
def handleEvent (s : MachineState) (e : Event) (t : Nat) : MachineState × List Action :=
  match e with
  | .sample d => handleHandsDetected s d t
  | .recordClick => dispatchRecordClick s
  | .toggleClick => dispatchToggleClick s
  | .dataAvailable n => dataAvailable s n

/-- One step of the event loop: a timer whose deadline has passed fires
before the event at time `e.t` is handled. -/
def step (s : MachineState) (e : TimedEvent) : MachineState × List Action :=
  let p1 := fireTimerIfDue s e.t
  let p2 := handleEvent p1.1 e.ev e.t
  (p2.1, p1.2 ++ p2.2)

/-- Run the event loop over a trace, concatenating the emitted actions. -/
def run (s : MachineState) : List TimedEvent → MachineState × List Action
  | [] => (s, [])
  | e :: es =>
      let p1 := step s e
      let p2 := run p1.1 es
      (p2.1, p1.2 ++ p2.2)

/-- The spec's TriggerState enumeration. -/
inductive TriggerState where
  | Idle
  | WaitingForHands
  | Recording
  | Processing
  deriving DecidableEq, Repr

/-- The spec's TriggerState as derived from the controller flags. -/
def triggerState (s : MachineState) : TriggerState :=
  if s.isProcessing then TriggerState.Processing
  else if s.isRecording then TriggerState.Recording
  else if s.isWaitingForHands then TriggerState.WaitingForHands
  else TriggerState.Idle

/-- The `TTSMetadata` record of `src/services/tts.ts`. -/
structure TTSMetadata where
  generationTime : String
  usedSpeaker : String
  deriving DecidableEq, Repr

/-- The `TTSResult` record of `src/services/tts.ts`; the audio blob is represented by
its size. -/
structure TTSResult where
  audioBlobSize : Nat
  metadata : TTSMetadata
  deriving DecidableEq, Repr

/-- JavaScript `x || d` applied to a nullable header string: `null` and
the empty string are falsy and yield the default. -/
def jsOrDefault (x : Option String) (d : String) : String :=
  match x with
  | some v => if v = "" then d else v
  | none => d

/-- The fields of a fetch response that `textToSpeech` inspects: the `ok`
flag, the status code, the two metadata headers (absent headers are
`none`) and the body size. -/
structure FetchResponse where
  ok : Bool
  status : Nat
  genTimeHeader : Option String
  usedSpeakerHeader : Option String
  bodySize : Nat
  deriving DecidableEq, Repr

/-- Embedding of `textToSpeech` (`src/services/tts.ts` lines 51-91), as a function of
the fetch response: a non-ok response throws `TTS server error`;
otherwise the metadata is read from the `X-Generation-Time` and
`X-Used-Speaker` headers with `|| '0.00'` and `|| speaker` defaults and
the body becomes the audio blob. -/
def textToSpeech (resp : FetchResponse) (speaker : String) : Except String TTSResult :=
  if !resp.ok then
    Except.error ("TTS server error: " ++ toString resp.status)
  else
    Except.ok
      { audioBlobSize := resp.bodySize,
        metadata :=
          { generationTime := jsOrDefault resp.genTimeHeader ("0.00"),
            usedSpeaker := jsOrDefault resp.usedSpeakerHeader speaker } }

/-- The result-related slice of the page state that `processVideo`
manipulates. -/
structure PipeState where
  isProcessing : Bool
  translatedText : Option String
  error : Option String
  audioBlobSize : Option Nat
  ttsMetadata : Option TTSMetadata
  isPlayingAudio : Bool
  deriving DecidableEq, Repr

/-- Side effects of `processVideo` beyond state updates. -/
inductive PipeAction where
  | playPing
  | playAudioBlob
  | toastTTSFailed
  deriving DecidableEq, Repr

/-- Embedding of `processVideo` (Index.tsx lines 82-125) as a function of the outcomes
of the two awaited external calls: reset the result fields and set
`isProcessing`; a translation failure stores its message in `error`; on
translation success the text is stored, and an inner try/catch around the
synthesis call either stores the audio and plays it (ping, then blob) or
only raises a destructive toast; `isProcessing` is cleared in `finally`. -/
def processVideo (s : PipeState) (translation : Except String String)
    (tts : Except String TTSResult) : PipeState × List PipeAction :=
  let s0 : PipeState :=
    { s with isProcessing := true, error := none, translatedText := none,
             audioBlobSize := none, ttsMetadata := none }
  match translation with
  | Except.error e => ({ s0 with error := some e, isProcessing := false }, [])
  | Except.ok text =>
      let s1 := { s0 with translatedText := some text }
      match tts with
      | Except.ok r =>
          ({ s1 with audioBlobSize := some r.audioBlobSize,
                     ttsMetadata := some r.metadata,
                     isPlayingAudio := true, isProcessing := false },
           [PipeAction.playPing, PipeAction.playAudioBlob])
      | Except.error _ =>
          ({ s1 with isProcessing := false }, [PipeAction.toastTTSFailed])

/-- A concrete base state used to instantiate theorems: manual mode,
idle, no recorder, stream available, MediaRecorder construction succeeds. -/
def idleState : MachineState :=
  { isAutoMode := false, isProcessing := false, translatedText := none,
    error := none, handsCurrentlyDetected := false, isWaitingForHands := false,
    isRecording := false, recorderPresent := false, recorderInactive := true,
    chunkSize := 0, recordedBlob := none, timer := none,
    streamAvailable := true, constructorOk := true }

/-- Concrete state for a failing recorder start: hands visible, stream
available, but the MediaRecorder constructor throws. -/
def c9State : MachineState :=
  { idleState with handsCurrentlyDetected := true, constructorOk := false }

/-- A concrete state with an open, still empty RecordingSession. -/
def emptySessionState : MachineState :=
  { idleState with isRecording := true, recorderPresent := true,
                   recorderInactive := false }

/-- Replacing `handsCurrentlyDetected` by `false` is the identity when it
is already `false`. -/
theorem set_hand_false (s : MachineState) (h : s.handsCurrentlyDetected = false) :
    { s with handsCurrentlyDetected := false } = s := by
  cases s
  subst h
  rfl

/-- The function `run` distributes over trace concatenation. -/
theorem run_append (s : MachineState) (l1 l2 : List TimedEvent) :
    run s (l1 ++ l2)
      = ((run (run s l1).1 l2).1, (run s l1).2 ++ (run (run s l1).1 l2).2) := by
  induction l1 generalizing s with
  | nil => simp [run]
  | cons e es ih => simp [run, ih, List.append_assoc]

/-- Running a one-event trace is `step`. -/
theorem run_single (s : MachineState) (e : TimedEvent) : run s [e] = step s e := by
  simp [run]

/-- While Recording with no pending timer, an absence sample arms the
disappear timer at its delivery time plus the fixed delay, with no
actions. -/
theorem step_absent_arms (s : MachineState) (e : TimedEvent)
    (hrec : s.isRecording = true) (hproc : s.isProcessing = false)
    (htimer : s.timer = none) (hev : e.ev = Event.sample false) :
    step s e = ({ s with handsCurrentlyDetected := false,
                         timer := some (e.t + HAND_DISAPPEAR_DELAY) }, []) := by
  simp [step, fireTimerIfDue, htimer, handleEvent, hev, handleHandsDetected,
        hproc, hrec]

/-- While a disappear timer is pending, an absence sample delivered
before the deadline changes nothing and emits nothing. -/
theorem step_absent_pending (s : MachineState) (d : Nat) (e : TimedEvent)
    (hrec : s.isRecording = true) (hproc : s.isProcessing = false)
    (htimer : s.timer = some d) (hhand : s.handsCurrentlyDetected = false)
    (hev : e.ev = Event.sample false) (ht : e.t < d) :
    step s e = (s, []) := by
  have hnotle : ¬ d ≤ e.t := Nat.not_le.mpr ht
  simp [step, fireTimerIfDue, htimer, hnotle, handleEvent, hev,
        handleHandsDetected, hproc]
  cases s
  simp_all

/-- A trace of absence samples all delivered before the pending deadline
leaves the state untouched and emits nothing. -/
theorem run_absent_pending (s : MachineState) (d : Nat) (mids : List TimedEvent)
    (hrec : s.isRecording = true) (hproc : s.isProcessing = false)
    (htimer : s.timer = some d) (hhand : s.handsCurrentlyDetected = false)
    (hmids : ∀ e ∈ mids, e.ev = Event.sample false ∧ e.t < d) :
    run s mids = (s, []) := by
  induction mids with
  | nil => rfl
  | cons e es ih =>
      have he := hmids e (List.mem_cons_self e es)
      have hstep := step_absent_pending s d e hrec hproc htimer hhand he.1 he.2
      have ihs := ih fun x hx => hmids x (List.mem_cons_of_mem e hx)
      simp [run, hstep, ihs]

/-- A presence sample delivered before the pending deadline cancels the
timer, leaves Recording untouched and emits nothing. -/
theorem step_present_cancels (s : MachineState) (d : Nat) (e : TimedEvent)
    (hrec : s.isRecording = true) (hproc : s.isProcessing = false)
    (htimer : s.timer = some d)
    (hev : e.ev = Event.sample true) (ht : e.t < d) :
    step s e = ({ s with handsCurrentlyDetected := true, timer := none }, []) := by
  have hnotle : ¬ d ≤ e.t := Nat.not_le.mpr ht
  simp [step, fireTimerIfDue, htimer, hnotle, handleEvent, hev,
        handleHandsDetected, hproc, hrec]

/-- The first event at or past the pending deadline fires the callback,
which issues exactly one stop-recording call and leaves Recording. -/
theorem step_deadline_fires (s : MachineState) (d : Nat) (e : TimedEvent)
    (hproc : s.isProcessing = false)
    (htimer : s.timer = some d)
    (hpres : s.recorderPresent = true) (hact : s.recorderInactive = false)
    (hev : e.ev = Event.sample false) (ht : d ≤ e.t) :
    ((step s e).2.count Action.stopRecCall = 1)
    ∧ (step s e).1.isRecording = false
    ∧ (step s e).1.timer = none := by
  rcases Nat.eq_zero_or_pos s.chunkSize with h0 | h0 <;>
    simp [step, fireTimerIfDue, htimer, ht, timerCallback, stopRecording,
          hpres, hact, handleEvent, hev, handleHandsDetected, hproc, h0,
          List.count_cons, List.count_append]

/-- C1: while Recording with no pending timer, an absence sample arms the
2500 ms disappear timer; if, after any number of further absence samples
delivered before the deadline, a presence sample arrives before the
deadline, the timer is cancelled, no stop-recording call is ever issued
in the episode and the machine is still in Recording. -/
theorem C1_brief_absence_no_stop (s : MachineState) (t0 t1 : Nat)
    (mids : List TimedEvent)
    (hrec : s.isRecording = true) (hproc : s.isProcessing = false)
    (htimer : s.timer = none)
    (hmids : ∀ e ∈ mids, e.ev = Event.sample false ∧ e.t < t0 + HAND_DISAPPEAR_DELAY)
    (ht1 : t1 < t0 + HAND_DISAPPEAR_DELAY) :
    (run s (⟨t0, Event.sample false⟩ :: (mids ++ [⟨t1, Event.sample true⟩]))).1.isRecording
        = true
    ∧ (run s (⟨t0, Event.sample false⟩ :: (mids ++ [⟨t1, Event.sample true⟩]))).1.timer
        = none
    ∧ triggerState
        (run s (⟨t0, Event.sample false⟩ :: (mids ++ [⟨t1, Event.sample true⟩]))).1
        = TriggerState.Recording
    ∧ Action.stopRecCall ∉
        (run s (⟨t0, Event.sample false⟩ :: (mids ++ [⟨t1, Event.sample true⟩]))).2 := by
  have h1 := step_absent_arms s ⟨t0, Event.sample false⟩ hrec hproc htimer rfl
  have h2 := run_absent_pending
      { s with handsCurrentlyDetected := false,
               timer := some (t0 + HAND_DISAPPEAR_DELAY) }
      (t0 + HAND_DISAPPEAR_DELAY) mids hrec hproc rfl rfl hmids
  have h3 := step_present_cancels
      { s with handsCurrentlyDetected := false,
               timer := some (t0 + HAND_DISAPPEAR_DELAY) }
      (t0 + HAND_DISAPPEAR_DELAY) ⟨t1, Event.sample true⟩ hrec hproc rfl rfl ht1
  have e1 : (⟨t0, Event.sample false⟩ :: (mids ++ [⟨t1, Event.sample true⟩])
        : List TimedEvent)
      = [⟨t0, Event.sample false⟩] ++ (mids ++ [⟨t1, Event.sample true⟩]) := rfl
  have key : run s (⟨t0, Event.sample false⟩ :: (mids ++ [⟨t1, Event.sample true⟩]))
      = ({ { s with handsCurrentlyDetected := false,
                    timer := some (t0 + HAND_DISAPPEAR_DELAY) } with
             handsCurrentlyDetected := true, timer := none }, []) := by
    simp only [e1, run_append, run_single, h1, h2, h3]
    simp
  rw [key]
  refine ⟨hrec, rfl, ?_, by simp⟩
  simp [triggerState, hproc, hrec]

/-- C1 witness: a 1000 ms absence episode inside a concrete recording. -/
theorem C1_witness :
    (emptySessionState.isRecording = true ∧ emptySessionState.isProcessing = false
      ∧ emptySessionState.timer = none
      ∧ (∀ e ∈ ([] : List TimedEvent),
          e.ev = Event.sample false ∧ e.t < 0 + HAND_DISAPPEAR_DELAY)
      ∧ 1000 < 0 + HAND_DISAPPEAR_DELAY)
    ∧ ((run emptySessionState
          (⟨0, Event.sample false⟩ :: ([] ++ [⟨1000, Event.sample true⟩]))).1.isRecording
          = true
        ∧ (run emptySessionState
            (⟨0, Event.sample false⟩ :: ([] ++ [⟨1000, Event.sample true⟩]))).1.timer
          = none
        ∧ triggerState
            (run emptySessionState
              (⟨0, Event.sample false⟩ :: ([] ++ [⟨1000, Event.sample true⟩]))).1
          = TriggerState.Recording
        ∧ Action.stopRecCall ∉
            (run emptySessionState
              (⟨0, Event.sample false⟩ :: ([] ++ [⟨1000, Event.sample true⟩]))).2) :=
  ⟨⟨rfl, rfl, rfl, by simp, by decide⟩,
   C1_brief_absence_no_stop emptySessionState 0 1000 [] rfl rfl rfl (by simp) (by decide)⟩

/-- C2: from Recording with an open session and no pending timer, an
absence sample arms the timer once; further absence samples before the
deadline do not re-arm it, and the first event at or past the deadline
fires the callback, which issues exactly one stop-recording call; the
machine has then left Recording and holds no timer. -/
theorem C2_persistent_absence_single_stop (s : MachineState) (t0 T : Nat)
    (mids : List TimedEvent)
    (hrec : s.isRecording = true) (hproc : s.isProcessing = false)
    (htimer : s.timer = none)
    (hpres : s.recorderPresent = true) (hact : s.recorderInactive = false)
    (hmids : ∀ e ∈ mids, e.ev = Event.sample false ∧ e.t < t0 + HAND_DISAPPEAR_DELAY)
    (hT : t0 + HAND_DISAPPEAR_DELAY ≤ T) :
    ((run s (⟨t0, Event.sample false⟩ :: (mids ++ [⟨T, Event.sample false⟩]))).2.count
        Action.stopRecCall = 1)
    ∧ (run s (⟨t0, Event.sample false⟩ :: (mids ++ [⟨T, Event.sample false⟩]))).1.isRecording
        = false
    ∧ (run s (⟨t0, Event.sample false⟩ :: (mids ++ [⟨T, Event.sample false⟩]))).1.timer
        = none := by
  have h1 := step_absent_arms s ⟨t0, Event.sample false⟩ hrec hproc htimer rfl
  have h2 := run_absent_pending
      { s with handsCurrentlyDetected := false,
               timer := some (t0 + HAND_DISAPPEAR_DELAY) }
      (t0 + HAND_DISAPPEAR_DELAY) mids hrec hproc rfl rfl hmids
  have h3 := step_deadline_fires
      { s with handsCurrentlyDetected := false,
               timer := some (t0 + HAND_DISAPPEAR_DELAY) }
      (t0 + HAND_DISAPPEAR_DELAY) ⟨T, Event.sample false⟩ hproc rfl hpres hact rfl hT
  have e1 : (⟨t0, Event.sample false⟩ :: (mids ++ [⟨T, Event.sample false⟩])
        : List TimedEvent)
      = [⟨t0, Event.sample false⟩] ++ (mids ++ [⟨T, Event.sample false⟩]) := rfl
  have key : run s (⟨t0, Event.sample false⟩ :: (mids ++ [⟨T, Event.sample false⟩]))
      = step { s with handsCurrentlyDetected := false,
                      timer := some (t0 + HAND_DISAPPEAR_DELAY) }
          ⟨T, Event.sample false⟩ := by
    simp only [e1, run_append, run_single, h1, h2]
    simp
  rw [key]
  exact ⟨h3.1, h3.2.1, h3.2.2⟩

/-- C2 witness: a concrete recording stopped exactly at the deadline. -/
theorem C2_witness :
    (emptySessionState.isRecording = true ∧ emptySessionState.isProcessing = false
      ∧ emptySessionState.timer = none ∧ emptySessionState.recorderPresent = true
      ∧ emptySessionState.recorderInactive = false
      ∧ (∀ e ∈ ([] : List TimedEvent),
          e.ev = Event.sample false ∧ e.t < 0 + HAND_DISAPPEAR_DELAY)
      ∧ 0 + HAND_DISAPPEAR_DELAY ≤ 2500)
    ∧ (((run emptySessionState
          (⟨0, Event.sample false⟩ :: ([] ++ [⟨2500, Event.sample false⟩]))).2.count
          Action.stopRecCall = 1)
        ∧ (run emptySessionState
            (⟨0, Event.sample false⟩ :: ([] ++ [⟨2500, Event.sample false⟩]))).1.isRecording
          = false
        ∧ (run emptySessionState
            (⟨0, Event.sample false⟩ :: ([] ++ [⟨2500, Event.sample false⟩]))).1.timer
          = none) :=
  ⟨⟨rfl, rfl, rfl, rfl, rfl, by simp, by decide⟩,
   C2_persistent_absence_single_stop emptySessionState 0 2500 [] rfl rfl rfl rfl rfl
     (by simp) (by decide)⟩

/-- C3: a `stopRecording` call with no open RecordingSession (no
MediaRecorder, or an inactive one) resolves `null`, clears `isRecording`
and produces no side effect at all (in particular no `recorder.stop` and
no sound); moreover, once recording is already stopped (not recording,
not waiting, no pending timer) no single event of the loop can emit the
recording-stopped sound again. -/
theorem C3_stop_without_open_session (s : MachineState)
    (h : s.recorderPresent = false ∨ s.recorderInactive = true) :
    stopRecording s = ({ s with isRecording := false }, none, [])
    ∧ (s.isRecording = false → s.isWaitingForHands = false → s.timer = none →
        ∀ e : TimedEvent, Action.playStopSound ∉ (step s e).2) := by
  constructor
  · rcases h with h | h <;> simp [stopRecording, h]
  · intro h1 h2 h3 e
    rcases e with ⟨t, ev⟩
    cases ev <;>
      simp [step, fireTimerIfDue, h3, handleEvent, handleHandsDetected,
            dispatchRecordClick, dispatchToggleClick, handleToggleAutoMode,
            handleStartRecording, handleStopRecording, startRecording,
            dataAvailable, h1, h2] <;>
      (repeat' split) <;> simp

/-- C3 witness: the inactive-recorder stop at a concrete state. -/
theorem C3_witness :
    (idleState.recorderPresent = false ∨ idleState.recorderInactive = true)
    ∧ (stopRecording idleState = ({ idleState with isRecording := false }, none, [])
        ∧ (idleState.isRecording = false → idleState.isWaitingForHands = false →
            idleState.timer = none →
            ∀ e : TimedEvent, Action.playStopSound ∉ (step idleState e).2)) :=
  ⟨Or.inl rfl, C3_stop_without_open_session idleState (Or.inl rfl)⟩

/-- C4: while recording, the ControlDock mode-toggle button is disabled,
so a toggle click changes nothing: the state (including `isAutoMode`) is
returned unchanged and no action is emitted. -/
theorem C4_toggle_rejected_while_recording (s : MachineState)
    (h : s.isRecording = true) :
    dispatchToggleClick s = (s, []) := by
  simp [dispatchToggleClick, h]

/-- C4 witness: toggling at a concrete recording state. -/
theorem C4_witness :
    ({ idleState with isRecording := true } : MachineState).isRecording = true
    ∧ dispatchToggleClick { idleState with isRecording := true }
        = ({ idleState with isRecording := true }, []) :=
  ⟨rfl, C4_toggle_rejected_while_recording _ rfl⟩

/-- C5: a manual-mode record click with hands absent enters
WaitingForHands and issues no start; the first subsequent presence sample
clears the flag, issues exactly one start-recording call and moves the
machine to Recording. -/
theorem C5_manual_click_waits_then_starts (s : MachineState) (t : Nat)
    (hauto : s.isAutoMode = false) (hproc : s.isProcessing = false)
    (hrec : s.isRecording = false) (hwait : s.isWaitingForHands = false)
    (hhands : s.handsCurrentlyDetected = false)
    (hstream : s.streamAvailable = true) (hok : s.constructorOk = true) :
    (dispatchRecordClick s).1.isWaitingForHands = true
    ∧ (dispatchRecordClick s).1.isRecording = false
    ∧ (dispatchRecordClick s).2 = []
    ∧ (handleHandsDetected (dispatchRecordClick s).1 true t).1.isWaitingForHands = false
    ∧ (handleHandsDetected (dispatchRecordClick s).1 true t).1.isRecording = true
    ∧ (handleHandsDetected (dispatchRecordClick s).1 true t).2.count Action.startRecCall = 1
    ∧ triggerState (handleHandsDetected (dispatchRecordClick s).1 true t).1
        = TriggerState.Recording := by
  simp [dispatchRecordClick, handleStartRecording, handleHandsDetected,
        startRecording, triggerState, hauto, hproc, hrec, hwait, hhands,
        hstream, hok, List.count_cons]

/-- C5 witness: the two-phase manual start at a concrete state. -/
theorem C5_witness :
    (idleState.isAutoMode = false ∧ idleState.isProcessing = false
      ∧ idleState.isRecording = false ∧ idleState.isWaitingForHands = false
      ∧ idleState.handsCurrentlyDetected = false
      ∧ idleState.streamAvailable = true ∧ idleState.constructorOk = true)
    ∧ ((dispatchRecordClick idleState).1.isWaitingForHands = true
        ∧ (dispatchRecordClick idleState).1.isRecording = false
        ∧ (dispatchRecordClick idleState).2 = []
        ∧ (handleHandsDetected (dispatchRecordClick idleState).1 true 40).1.isWaitingForHands = false
        ∧ (handleHandsDetected (dispatchRecordClick idleState).1 true 40).1.isRecording = true
        ∧ (handleHandsDetected (dispatchRecordClick idleState).1 true 40).2.count Action.startRecCall = 1
        ∧ triggerState (handleHandsDetected (dispatchRecordClick idleState).1 true 40).1
            = TriggerState.Recording) :=
  ⟨⟨rfl, rfl, rfl, rfl, rfl, rfl, rfl⟩,
   C5_manual_click_waits_then_starts idleState 40 rfl rfl rfl rfl rfl rfl rfl⟩

/-- C6: when the clip produced by stopping is empty (`null` blob or zero
bytes), neither stop path (explicit stop, disappear-timer callback)
dispatches `processVideo`, and both land in Idle. -/
theorem C6_empty_clip_skips_pipeline (s : MachineState)
    (hproc : s.isProcessing = false) (hsize : s.chunkSize = 0) :
    ((∀ n, Action.processVideo n ∉ (handleStopRecording s).2)
      ∧ triggerState (handleStopRecording s).1 = TriggerState.Idle)
    ∧ (∀ n, Action.processVideo n ∉ (timerCallback s).2)
      ∧ triggerState (timerCallback s).1 = TriggerState.Idle := by
  refine ⟨⟨?_, ?_⟩, ?_, ?_⟩ <;>
    simp [handleStopRecording, timerCallback, stopRecording, triggerState,
          hproc, hsize] <;>
    (repeat' split) <;> simp_all [triggerState, hproc]

/-- C6 witness: an open zero-byte session stopped at a concrete state. -/
theorem C6_witness :
    (emptySessionState.isProcessing = false ∧ emptySessionState.chunkSize = 0)
    ∧ (((∀ n, Action.processVideo n ∉ (handleStopRecording emptySessionState).2)
        ∧ triggerState (handleStopRecording emptySessionState).1 = TriggerState.Idle)
      ∧ (∀ n, Action.processVideo n ∉ (timerCallback emptySessionState).2)
        ∧ triggerState (timerCallback emptySessionState).1 = TriggerState.Idle) :=
  ⟨⟨rfl, rfl⟩,
   C6_empty_clip_skips_pipeline _ rfl rfl⟩

/-- C7: a synthesis failure after a successful translation keeps the
translated text, leaves the translation error field `null`, clears
`isProcessing` and emits exactly the destructive TTS toast. -/
theorem C7_tts_failure_keeps_translation (s : PipeState) (text emsg : String) :
    (processVideo s (Except.ok text) (Except.error emsg)).1.translatedText = some text
    ∧ (processVideo s (Except.ok text) (Except.error emsg)).1.error = none
    ∧ (processVideo s (Except.ok text) (Except.error emsg)).1.isProcessing = false
    ∧ (processVideo s (Except.ok text) (Except.error emsg)).2
        = [PipeAction.toastTTSFailed] := by
  simp [processVideo]

/-- C8: whenever some codec in the fixed priority list is supported, the
mime type chosen by the recorder is the first supported one in that
order. -/
theorem C8_codec_priority_first_supported (supported : String → Bool)
    (h : ∃ c ∈ codecPriority, supported c = true) :
    codecPriority.find? supported = some (chooseMimeType supported) := by
  cases h1 : supported MIME_PREFERRED <;>
    cases h2 : supported MIME_WEBM <;>
      cases h3 : supported MIME_MP4 <;>
        simp_all [codecPriority, chooseMimeType, List.find?]

/-- C8 witness: only the webm fallback is supported, and it is chosen. -/
theorem C8_witness :
    (∃ c ∈ codecPriority, (fun m => m == MIME_WEBM) c = true)
    ∧ codecPriority.find? (fun m => m == MIME_WEBM)
        = some (chooseMimeType (fun m => m == MIME_WEBM)) :=
  ⟨by decide, C8_codec_priority_first_supported _ (by decide)⟩

/-- C9 counterexample: with hands visible, a stream available and a
MediaRecorder constructor that throws, `handleStartRecording` leaves the
error banner empty and emits only the start sound, the hook call and a
console log — no user-visible notification of the dropped recording. -/
theorem C9_counterexample :
    (handleStartRecording c9State).1.error = none
    ∧ (handleStartRecording c9State).1.isRecording = false
    ∧ (handleStartRecording c9State).2
        = [Action.playStartSound, Action.startRecCall, Action.consoleError] := by
  decide

/-- C9 (amended): when the recorder fails to start on an explicit request,
the machine stays out of Recording and lands in Idle, but the failure is
only logged to the console — the error field stays `null`, no pipeline
dispatch and no user-visible message is produced. -/
theorem C9_start_failure_falls_back_idle (s : MachineState)
    (hproc : s.isProcessing = false) (hrec : s.isRecording = false)
    (hwait : s.isWaitingForHands = false)
    (hhands : s.handsCurrentlyDetected = true) (hstream : s.streamAvailable = true)
    (hfail : s.constructorOk = false) :
    (handleStartRecording s).1.isRecording = false
    ∧ triggerState (handleStartRecording s).1 = TriggerState.Idle
    ∧ (handleStartRecording s).1.error = none
    ∧ Action.consoleError ∈ (handleStartRecording s).2
    ∧ (∀ n, Action.processVideo n ∉ (handleStartRecording s).2) := by
  simp [handleStartRecording, startRecording, triggerState, hproc, hrec,
        hwait, hhands, hstream, hfail]

/-- C9 witness: the amended behaviour at the concrete failing state. -/
theorem C9_witness :
    (c9State.isProcessing = false ∧ c9State.isRecording = false
      ∧ c9State.isWaitingForHands = false ∧ c9State.handsCurrentlyDetected = true
      ∧ c9State.streamAvailable = true ∧ c9State.constructorOk = false)
    ∧ ((handleStartRecording c9State).1.isRecording = false
        ∧ triggerState (handleStartRecording c9State).1 = TriggerState.Idle
        ∧ (handleStartRecording c9State).1.error = none
        ∧ Action.consoleError ∈ (handleStartRecording c9State).2
        ∧ (∀ n, Action.processVideo n ∉ (handleStartRecording c9State).2)) :=
  ⟨⟨rfl, rfl, rfl, rfl, rfl, rfl⟩,
   C9_start_failure_falls_back_idle c9State rfl rfl rfl rfl rfl rfl⟩

/-- C10: a successful TTS response whose metadata headers are absent
yields `generationTime = "0.00"` and `usedSpeaker` equal to the speaker
requested in the call. -/
theorem C10_header_defaults (resp : FetchResponse) (speaker : String)
    (hok : resp.ok = true) (hgen : resp.genTimeHeader = none)
    (hsp : resp.usedSpeakerHeader = none) :
    textToSpeech resp speaker
      = Except.ok
          { audioBlobSize := resp.bodySize,
            metadata := { generationTime := "0.00", usedSpeaker := speaker } } := by
  simp [textToSpeech, jsOrDefault, hok, hgen, hsp]

/-- C10 witness: a concrete header-less ok response with speaker p225. -/
theorem C10_witness :
    ((⟨true, 200, none, none, 7⟩ : FetchResponse).ok = true
      ∧ (⟨true, 200, none, none, 7⟩ : FetchResponse).genTimeHeader = none
      ∧ (⟨true, 200, none, none, 7⟩ : FetchResponse).usedSpeakerHeader = none)
    ∧ textToSpeech ⟨true, 200, none, none, 7⟩ ("p225")
        = Except.ok
            { audioBlobSize := 7,
              metadata := { generationTime := "0.00", usedSpeaker := "p225" } } :=
  ⟨⟨rfl, rfl, rfl⟩, C10_header_defaults _ _ rfl rfl rfl⟩

end SignSpeak
